import Mathlib

/-!
Shallow embedding of the Geospatial-Tracker backend (Python, `src/backend`)
used to verify the specification claims.

Modelling conventions:
* Python floats are modelled as rationals (`ℚ`); the claims under study only
  depend on comparisons, `None`-checks and exact record plumbing, never on
  binary floating-point rounding.
* Upstream JSON documents are modelled by the inductive type `JVal`.
* Python exceptions are modelled by the explicit error type `PyErr` threaded
  through `Except`; a `try/except` block is a `match` on the `Except` value.
* Network I/O is modelled by an `UpstreamOutcome` argument describing what the
  single HTTP request of a fetcher did (timeout, HTTP error status, other
  connection/JSON failure, or a successful body).
-/

/-- Python exception classes distinguished by the embedded code paths. -/
inductive PyErr where
  | keyErr
  | typeErr
  | valueErr
  | indexErr
  | attrErr
  | validationErr
  | timeoutErr
  | httpStatusErr
  | otherErr
deriving Repr, DecidableEq

/-- JSON-like Python values returned by upstream services. -/
inductive JVal where
  | null
  | bool (b : Bool)
  | num (q : ℚ)
  | str (s : String)
  | arr (xs : List JVal)
  | obj (kvs : List (String × JVal))
deriving Repr

/-- ASCII lower-casing of one character, as Python `str.lower` does on the
hexadecimal identifiers that appear in this code base. -/
def lowerChar (c : Char) : Char :=
  if 'A' ≤ c ∧ c ≤ 'Z' then Char.ofNat (c.toNat + 32) else c

/-- Python `str.lower` (ASCII fragment). -/
def pyLower (s : String) : String := ⟨s.data.map lowerChar⟩

/-- Python `str.startswith` for a single string argument. -/
def pyStartsWith (s p : String) : Bool := p.data.isPrefixOf s.data

/-- Characters removed by Python `str.strip()`. -/
def pyWhitespaceChar (c : Char) : Bool :=
  c == ' ' || c == '\t' || c == '\n' || c == '\r' || c == '\x0b' || c == '\x0c'

/-- Python `str.strip()`. -/
def pyStrip (s : String) : String :=
  ⟨((s.data.dropWhile pyWhitespaceChar).reverse.dropWhile pyWhitespaceChar).reverse⟩

/-- Numeric value of a list of decimal digit characters. -/
def digitsVal (cs : List Char) : Nat := cs.foldl (fun n c => n * 10 + (c.toNat - 48)) 0

/-- Rational value of an integer part and a fractional part given as digits. -/
def ratOfDigits (ip fp : List Char) : ℚ :=
  (digitsVal ip : ℚ) + (digitsVal fp : ℚ) / ((10 : ℚ) ^ fp.length)

/-- Unsigned decimal literal accepted by Python `float`; exponents are not
modelled (no claim depends on them). -/
def parseUnsignedFloat? (cs : List Char) : Option ℚ :=
  let ip := cs.takeWhile Char.isDigit
  let rest := cs.dropWhile Char.isDigit
  match rest with
  | [] => if ip.isEmpty then none else some (digitsVal ip : ℚ)
  | '.' :: fp =>
      if fp.all Char.isDigit && !(ip.isEmpty && fp.isEmpty) then some (ratOfDigits ip fp)
      else none
  | _ => none

/-- Python `float(str)`: strips whitespace, optional sign, decimal literal;
returns `none` where Python raises `ValueError` (e.g. on `"ground"`). -/
def strToRat? (s : String) : Option ℚ :=
  match (pyStrip s).data with
  | '-' :: t => (parseUnsignedFloat? t).map (fun q => -q)
  | '+' :: t => parseUnsignedFloat? t
  | t => parseUnsignedFloat? t

/-- Python `int(str)` for integer literals. -/
def parseInt? (s : String) : Option Int :=
  match (pyStrip s).data with
  | '-' :: t => if !t.isEmpty && t.all Char.isDigit then some (-(digitsVal t : Int)) else none
  | '+' :: t => if !t.isEmpty && t.all Char.isDigit then some (digitsVal t : Int) else none
  | t => if !t.isEmpty && t.all Char.isDigit then some (digitsVal t : Int) else none

/-- Python truncation toward zero, as `int(float)` does. -/
def ratTrunc (q : ℚ) : Int := if 0 ≤ q then q.floor else -((-q).floor)

/-- Python truthiness of a JSON value (`if x:` / `x or y`). -/
def truthy : JVal → Bool
  | .null => false
  | .bool b => b
  | .num q => decide (q ≠ 0)
  | .str s => !s.data.isEmpty
  | .arr xs => !xs.isEmpty
  | .obj kvs => !kvs.isEmpty

/-- Lookup in a JSON object association list (first binding wins). -/
def jlookup (kvs : List (String × JVal)) (k : String) : Option JVal :=
  (kvs.find? (fun p => p.1 == k)).map (fun p => p.2)

/-- Python `d.get(k)`: `None` for a missing key, `AttributeError` when the
receiver is not a dict. -/
def pyGet (d : JVal) (k : String) : Except PyErr JVal :=
  match d with
  | .obj kvs => .ok ((jlookup kvs k).getD .null)
  | _ => .error .attrErr

/-- Python `d.get(k, dflt)`. -/
def pyGetD (d : JVal) (k : String) (dflt : JVal) : Except PyErr JVal :=
  match d with
  | .obj kvs => .ok ((jlookup kvs k).getD dflt)
  | _ => .error .attrErr

/-- Python `d[k]` for a string key: `KeyError` when missing, `TypeError` when
the receiver is not a dict. -/
def pySub (d : JVal) (k : String) : Except PyErr JVal :=
  match d with
  | .obj kvs =>
      match jlookup kvs k with
      | some v => .ok v
      | none => .error .keyErr
  | _ => .error .typeErr

/-- Python `d[i]` for an integer index. -/
def pyIndex (d : JVal) (i : Nat) : Except PyErr JVal :=
  match d with
  | .arr xs =>
      match xs[i]? with
      | some v => .ok v
      | none => .error .indexErr
  | .str s =>
      match s.data[i]? with
      | some c => .ok (.str ⟨[c]⟩)
      | none => .error .indexErr
  | _ => .error .typeErr

/-- Python iteration `for x in v` over a JSON value. -/
def pyIter : JVal → Except PyErr (List JVal)
  | .arr xs => .ok xs
  | .str s => .ok (s.data.map (fun c => .str ⟨[c]⟩))
  | .obj kvs => .ok (kvs.map (fun p => .str p.1))
  | _ => .error .typeErr

/-- Python `v is None`. -/
def JVal.isNull : JVal → Bool
  | .null => true
  | _ => false

/-- Python `v == "lit"` against a string literal: value equality for strings,
`False` for every other type. -/
def pyEqStr (v : JVal) (s : String) : Bool :=
  match v with
  | .str t => t == s
  | _ => false

/-- Python `v.strip()` on a JSON value: `AttributeError` unless a string. -/
def pyStripJ : JVal → Except PyErr JVal
  | .str s => .ok (.str (pyStrip s))
  | _ => .error .attrErr

/-- Python `float(v)`: `TypeError` for `None`/containers, `ValueError` for a
non-numeric string. -/
def pyFloat : JVal → Except PyErr ℚ
  | .num q => .ok q
  | .bool b => .ok (if b then 1 else 0)
  | .str s =>
      match strToRat? s with
      | some q => .ok q
      | none => .error .valueErr
  | .null => .error .typeErr
  | .arr _ => .error .typeErr
  | .obj _ => .error .typeErr

/-- Python `int(v)`. -/
def pyInt : JVal → Except PyErr Int
  | .num q => .ok (ratTrunc q)
  | .bool b => .ok (if b then 1 else 0)
  | .str s =>
      match parseInt? s with
      | some n => .ok n
      | none => .error .valueErr
  | .null => .error .typeErr
  | .arr _ => .error .typeErr
  | .obj _ => .error .typeErr

/-- Pydantic validation of a required `str` field. -/
def vStr : JVal → Except PyErr String
  | .str s => .ok s
  | _ => .error .validationErr

/-- Pydantic validation of an `Optional[float]` field (lax mode: numbers and
numeric strings coerce, everything else is a `ValidationError`). -/
def vOptFloat : JVal → Except PyErr (Option ℚ)
  | .null => .ok none
  | .num q => .ok (some q)
  | .str s =>
      match strToRat? s with
      | some q => .ok (some q)
      | none => .error .validationErr
  | _ => .error .validationErr

/-- Pydantic validation of an `Optional[int]` field. -/
def vOptInt : JVal → Except PyErr (Option Int)
  | .null => .ok none
  | .num q => if q.den = 1 then .ok (some q.num) else .error .validationErr
  | .str s =>
      match parseInt? s with
      | some n => .ok (some n)
      | none => .error .validationErr
  | _ => .error .validationErr

/-- A Python list comprehension `[g(x) for x in xs]` whose body may raise:
the first escaping exception aborts the whole comprehension. -/
def mapExcept (g : α → Except ε β) : List α → Except ε (List β)
  | [] => .ok []
  | x :: xs => do
      let b ← g x
      let bs ← mapExcept g xs
      return b :: bs

/-- Outcome of the single HTTP request performed by a fetcher. -/
inductive UpstreamOutcome where
  | timeout
  | httpStatus (code : Nat)
  | connError
  | ok (data : JVal)

/-- Embedding of `models/schemas.py`: `AircraftPosition`. -/
structure AircraftPosition where
  icao24 : String
  callsign : String := ""
  origin_country : String := ""
  longitude : Option ℚ := none
  latitude : Option ℚ := none
  altitude : Option ℚ := none
  velocity : Option ℚ := none
  heading : Option ℚ := none
  vertical_rate : Option ℚ := none
  on_ground : Bool := false
  last_contact : Option Int := none
deriving Repr, DecidableEq

/-- Embedding of `models/schemas.py`: `SatellitePosition`. -/
structure SatellitePosition where
  norad_id : String
  name : String
  longitude : ℚ
  latitude : ℚ
  altitude_km : ℚ
  velocity_km_s : ℚ
deriving Repr, DecidableEq

/-- Embedding of `models/schemas.py`: `EarthquakeEvent`. -/
structure EarthquakeEvent where
  id : String
  magnitude : ℚ
  place : String
  longitude : ℚ
  latitude : ℚ
  depth_km : ℚ
  time_ms : Int
deriving Repr, DecidableEq

/-- Property values stored on a GeoJSON feature (`properties: dict`). -/
inductive PropVal where
  | s (v : String)
  | n (v : ℚ)
  | b (v : Bool)
  | i (v : Int)
  | null
deriving Repr, DecidableEq

/-- A Python `Optional[float]` attribute as a GeoJSON property value. -/
def PropVal.optNum : Option ℚ → PropVal
  | some q => .n q
  | none => .null

/-- A Python `Optional[int]` attribute as a GeoJSON property value. -/
def PropVal.optInt : Option Int → PropVal
  | some m => PropVal.i m
  | none => PropVal.null

/-- Embedding of `models/schemas.py`: `GeoJSONPoint`. -/
structure GeoJSONPoint where
  type : String := "Point"
  coordinates : List ℚ
deriving Repr, DecidableEq

/-- Embedding of `models/schemas.py`: `GeoJSONFeature`. -/
structure GeoJSONFeature where
  type : String := "Feature"
  geometry : GeoJSONPoint
  properties : List (String × PropVal)
deriving Repr, DecidableEq

/-- Embedding of `models/schemas.py`: `GeoJSONFeatureCollection`. -/
structure GeoJSONFeatureCollection where
  type : String := "FeatureCollection"
  features : List GeoJSONFeature
deriving Repr, DecidableEq

/-!
Section: `ingestion/opensky.py`

The credential selection (`bearer > basic > anonymous`) only changes which
HTTP request is issued, never how the response is handled; the embedding
abstracts the request into the `UpstreamOutcome` argument. With the default
configuration of `config.py` every credential is the empty string, so the
anonymous branch runs.
-/

/-- Embedding of `_parse_state_vector`, body inside its `try`: positional decoding of one
OpenSky state vector followed by the pydantic validation performed by the
`AircraftPosition(...)` constructor call. Index accesses happen in the order
the source evaluates them. -/
def parse_state_vector_body (state : JVal) : Except PyErr (Option AircraftPosition) := do
  let lonV ← pyIndex state 5
  let latV ← pyIndex state 6
  if lonV.isNull || latV.isNull then
    return none
  let icaoV ← pyIndex state 0
  let icaoArg := if truthy icaoV then icaoV else .str ""
  let csRaw ← pyIndex state 1
  let csArg ← pyStripJ (if truthy csRaw then csRaw else .str "")
  let ocV ← pyIndex state 2
  let ocArg := if truthy ocV then ocV else .str ""
  let altV ← pyIndex state 7
  let velV ← pyIndex state 9
  let hdgV ← pyIndex state 10
  let vrV ← pyIndex state 11
  let ogV ← pyIndex state 8
  let lcV ← pyIndex state 4
  let icao24 ← vStr icaoArg
  let callsign ← vStr csArg
  let origin_country ← vStr ocArg
  let longitude ← vOptFloat lonV
  let latitude ← vOptFloat latV
  let altitude ← vOptFloat altV
  let velocity ← vOptFloat velV
  let heading ← vOptFloat hdgV
  let vertical_rate ← vOptFloat vrV
  let last_contact ← vOptInt lcV
  return some { icao24, callsign, origin_country, longitude, latitude, altitude,
                velocity, heading, vertical_rate, on_ground := truthy ogV, last_contact }

/-- Embedding of `_parse_state_vector`: its `except (IndexError, TypeError)` clause skips
the record; every other exception (for example a pydantic validation error)
propagates to the caller. -/
def parse_state_vector (state : JVal) : Except PyErr (Option AircraftPosition) :=
  match parse_state_vector_body state with
  | .ok r => .ok r
  | .error e => if e = .indexErr ∨ e = .typeErr then .ok none else .error e

/-- Embedding of `fetch_aircraft`, body inside its `try`. -/
def fetch_aircraft_body : UpstreamOutcome → Except PyErr (List AircraftPosition)
  | .timeout => .error .timeoutErr
  | .httpStatus _ => .error .httpStatusErr
  | .connError => .error .otherErr
  | .ok data => do
      let statesV ← pyGet data "states"
      let states ← pyIter (if truthy statesV then statesV else .arr [])
      let parsed ← mapExcept parse_state_vector states
      return parsed.filterMap id

/-- Embedding of `fetch_aircraft`: all exception branches return the empty list. -/
def fetch_aircraft (outcome : UpstreamOutcome) : List AircraftPosition :=
  match fetch_aircraft_body outcome with
  | .ok l => l
  | .error _ => []

/-!
Section: `ingestion/usgs.py`
-/

/-- The module-level cache of `ingestion/usgs.py` (`_cache`, `_cache_time`). -/
structure QuakeCacheState where
  cache : List EarthquakeEvent
  cache_time : ℚ
deriving Repr, DecidableEq

/-- Embedding of `_parse_feature`, body inside its `try`, argument evaluation in source
order, then the pydantic validation done by `EarthquakeEvent(...)`. -/
def parse_feature_body (f : JVal) : Except PyErr EarthquakeEvent := do
  let props ← pySub f "properties"
  let geom ← pySub f "geometry"
  let coords ← pySub geom "coordinates"
  let idV ← pySub f "id"
  let magV ← pySub props "mag"
  let magnitude ← pyFloat magV
  let placeV ← pyGet props "place"
  let placeArg := if truthy placeV then placeV else .str ""
  let lonV ← pyIndex coords 0
  let longitude ← pyFloat lonV
  let latV ← pyIndex coords 1
  let latitude ← pyFloat latV
  let depV ← pyIndex coords 2
  let depth_km ← pyFloat depV
  let tV ← pySub props "time"
  let time_ms ← pyInt tV
  let id ← vStr idV
  let place ← vStr placeArg
  return { id, magnitude, place, longitude, latitude, depth_km, time_ms }

/-- Embedding of `_parse_feature`: `except (KeyError, TypeError, ValueError)` skips the
feature; other exceptions propagate. -/
def parse_feature (f : JVal) : Except PyErr (Option EarthquakeEvent) :=
  match parse_feature_body f with
  | .ok e => .ok (some e)
  | .error e =>
      if e = .keyErr ∨ e = .typeErr ∨ e = .valueErr then .ok none else .error e

/-- Embedding of `CACHE_TTL_SECONDS` of `ingestion/usgs.py`. -/
def USGS_CACHE_TTL_SECONDS : ℚ := 60

/-- Embedding of `fetch_earthquakes`, body inside its `try`: on success the cache is
replaced by the freshly parsed events and the stamp by `now`. -/
def fetch_earthquakes_body (now : ℚ) :
    UpstreamOutcome → Except PyErr (QuakeCacheState × List EarthquakeEvent)
  | .timeout => .error .timeoutErr
  | .httpStatus _ => .error .httpStatusErr
  | .connError => .error .otherErr
  | .ok data => do
      let featuresV ← pyGet data "features"
      let feats ← pyIter (if truthy featuresV then featuresV else .arr [])
      let events ← mapExcept parse_feature feats
      let newCache := events.filterMap id
      return (⟨newCache, now⟩, newCache)

/-- Embedding of `fetch_earthquakes`: serves a fresh cache directly; on any exception it
returns the previous cache value and leaves the cache state untouched. -/
def fetch_earthquakes (st : QuakeCacheState) (now : ℚ) (outcome : UpstreamOutcome) :
    QuakeCacheState × List EarthquakeEvent :=
  if st.cache ≠ [] ∧ now - st.cache_time < USGS_CACHE_TTL_SECONDS then (st, st.cache)
  else
    match fetch_earthquakes_body now outcome with
    | .ok r => r
    | .error _ => (st, st.cache)

/-!
Section: `ingestion/celestrak.py`

The `while i + 2 < len(lines)` loop of `_parse_tle_text` advances the index
by three on a matched triple and by one otherwise; it is embedded with an
explicit fuel argument equal to the number of remaining lines, which bounds
the number of loop iterations, so the function stays kernel-computable.
-/

/-- Embedding of `(name, line1, line2)` triples produced by `_parse_tle_text`. -/
abbrev TleTriple := String × String × String

/-- The list comprehension of `_parse_tle_text`:
`[ln.strip() for ln in text.splitlines() if ln.strip()]`. -/
def cleanTleLines (raw : List String) : List String :=
  raw.filterMap (fun ln => let s := pyStrip ln; if s = "" then none else some s)

/-- One-step translation of the `while` loop of `_parse_tle_text`. -/
def parse_tle_step : List String → Nat → List TleTriple
  | name :: l1 :: l2 :: rest, fuel + 1 =>
      if pyStartsWith l1 "1 " && pyStartsWith l2 "2 " then
        (name, l1, l2) :: parse_tle_step rest fuel
      else
        parse_tle_step (l1 :: l2 :: rest) fuel
  | _, _ => []

/-- The `while` loop of `_parse_tle_text` on stripped, nonempty lines. -/
def parseTleLoop (lines : List String) : List TleTriple :=
  parse_tle_step lines lines.length

/-- Embedding of `_parse_tle_text`, taking the text as its raw lines. -/
def parse_tle_text (raw : List String) : List TleTriple :=
  parseTleLoop (cleanTleLines raw)

/-- The module-level cache of `ingestion/celestrak.py`
(`_tle_cache`, `_cache_time`). -/
structure TleCacheState where
  tle_cache : List TleTriple
  cache_time : ℚ
deriving Repr, DecidableEq

/-- Embedding of `MAX_SATELLITES` of `ingestion/celestrak.py`. -/
def MAX_SATELLITES : Nat := 2000

/-- Embedding of `CACHE_TTL_SECONDS` of `ingestion/celestrak.py` (30 minutes). -/
def TLE_CACHE_TTL_SECONDS : ℚ := 1800

/-- Result of one `fetch_satellites` call, instrumented with the number of
upstream HTTP requests issued and the list of backoff sleeps performed. -/
structure SatFetchResult where
  state : TleCacheState
  result : List SatellitePosition
  upstreamCalls : Nat
  backoffSleeps : List ℚ
deriving Repr, DecidableEq

/-- Embedding of `fetch_satellites`. `computePos` abstracts `_compute_position` (SGP4
orbital propagation, floating point); `oracle n` is the outcome of the
`n`-th upstream request the function would issue, counting from zero. The
source issues at most one request per call and contains no retry loop and
no backoff sleep, which the instrumentation fields record. -/
def fetch_satellites (computePos : TleTriple → Option SatellitePosition)
    (st : TleCacheState) (now : ℚ)
    (oracle : Nat → Except Unit (List String)) : SatFetchResult :=
  if st.tle_cache = [] ∨ now - st.cache_time > TLE_CACHE_TTL_SECONDS then
    match oracle 0 with
    | .ok rawLines =>
        let newCache := parse_tle_text rawLines
        ⟨⟨newCache, now⟩, (newCache.take MAX_SATELLITES).filterMap computePos, 1, []⟩
    | .error _ =>
        if st.tle_cache = [] then ⟨st, [], 1, []⟩
        else ⟨st, (st.tle_cache.take MAX_SATELLITES).filterMap computePos, 1, []⟩
  else ⟨st, (st.tle_cache.take MAX_SATELLITES).filterMap computePos, 0, []⟩

/-!
Section: `ingestion/adsb_exchange.py`
-/

/-- Embedding of `MILITARY_ICAO_PREFIXES`. -/
def MILITARY_ICAO_PREFIXES : List String :=
  ["ae", "43", "3a", "43c", "7c1", "710", "154"]

/-- Embedding of `_is_military_icao`: `icao24.lower().startswith(MILITARY_ICAO_PREFIXES)`
(a tuple argument to `startswith` matches when any member is a prefix). -/
def is_military_icao (icao24 : String) : Bool :=
  MILITARY_ICAO_PREFIXES.any (fun p => pyStartsWith (pyLower icao24) p)

/-- Conversion factor `0.3048` (feet to metres) as written in the source. -/
def FEET_TO_METERS : ℚ := 3048 / 10000

/-- Conversion factor `0.514444` (knots to m/s) as written in the source. -/
def KNOTS_TO_MS : ℚ := 514444 / 1000000

/-- The altitude keyword argument of the record constructor in
`_fetch_from_adsb_exchange`:
`float(ac["alt_baro"]) * 0.3048 if ac.get("alt_baro") else None`. -/
def adsb_altitude (ac : JVal) : Except PyErr (Option ℚ) := do
  let v ← pyGet ac "alt_baro"
  if truthy v then do
    let x ← pyFloat (← pySub ac "alt_baro")
    return some (x * FEET_TO_METERS)
  else
    return none

/-- The velocity keyword argument of the record constructor in
`_fetch_from_adsb_exchange`:
`float(ac["gs"]) * 0.514444 if ac.get("gs") else None`. -/
def adsb_velocity (ac : JVal) : Except PyErr (Option ℚ) := do
  let v ← pyGet ac "gs"
  if truthy v then do
    let x ← pyFloat (← pySub ac "gs")
    return some (x * KNOTS_TO_MS)
  else
    return none

/-- The heading keyword argument of the record constructor in
`_fetch_from_adsb_exchange`: `float(ac["track"]) if ac.get("track") else None`. -/
def adsb_heading (ac : JVal) : Except PyErr (Option ℚ) := do
  let v ← pyGet ac "track"
  if truthy v then do
    let x ← pyFloat (← pySub ac "track")
    return some x
  else
    return none

/-- One record of the `for ac in data.get("ac") or []` loop of
`_fetch_from_adsb_exchange`, body inside its `try`: keyword arguments are
evaluated left to right, then the pydantic validation of
`AircraftPosition(...)` runs. -/
def parse_adsb_record_body (ac : JVal) : Except PyErr (Option AircraftPosition) := do
  let latV ← pyGet ac "lat"
  let lonV ← pyGet ac "lon"
  if latV.isNull || lonV.isNull then
    return none
  else
    let hexV ← pyGetD ac "hex" (.str "")
    let flightV ← pyGet ac "flight"
    let csArg ← pyStripJ (if truthy flightV then flightV else .str "")
    let lon ← pyFloat lonV
    let lat ← pyFloat latV
    let altitude ← adsb_altitude ac
    let velocity ← adsb_velocity ac
    let heading ← adsb_heading ac
    let abV ← pyGet ac "alt_baro"
    let icao24 ← vStr hexV
    let callsign ← vStr csArg
    return some { icao24, callsign, origin_country := "",
                  longitude := some lon, latitude := some lat, altitude,
                  velocity, heading, vertical_rate := none,
                  on_ground := pyEqStr abV "ground", last_contact := none }

/-- The `except (KeyError, TypeError, ValueError): continue` handler of the
per-record loop; other exceptions propagate to the outer handler. -/
def parse_adsb_record (ac : JVal) : Except PyErr (Option AircraftPosition) :=
  match parse_adsb_record_body ac with
  | .ok r => .ok r
  | .error e =>
      if e = .keyErr ∨ e = .typeErr ∨ e = .valueErr then .ok none else .error e

/-- Embedding of `_fetch_from_adsb_exchange`, body inside its `try`. -/
def fetch_from_adsb_exchange_body : UpstreamOutcome → Except PyErr (List AircraftPosition)
  | .timeout => .error .timeoutErr
  | .httpStatus _ => .error .httpStatusErr
  | .connError => .error .otherErr
  | .ok data => do
      let acV ← pyGet data "ac"
      let acs ← pyIter (if truthy acV then acV else .arr [])
      let parsed ← mapExcept parse_adsb_record acs
      return parsed.filterMap id

/-- Embedding of `_fetch_from_adsb_exchange`: every exception branch returns `[]`. -/
def fetch_from_adsb_exchange (outcome : UpstreamOutcome) : List AircraftPosition :=
  match fetch_from_adsb_exchange_body outcome with
  | .ok l => l
  | .error _ => []

/-- Result of `fetch_military_aircraft`, instrumented with which upstream
services were contacted. -/
structure MilFetchResult where
  result : List AircraftPosition
  opensky_called : Bool
  adsb_called : Bool
deriving Repr, DecidableEq

/-- Embedding of `fetch_military_aircraft`: `adsbApiKey` is `settings.ADSB_API_KEY`
(truthy when nonempty); `adsbOutcome` and `openskyOutcome` describe the
upstream requests of the two possible network paths. -/
def fetch_military_aircraft (adsbApiKey : String)
    (all_aircraft : Option (List AircraftPosition))
    (adsbOutcome openskyOutcome : UpstreamOutcome) : MilFetchResult :=
  if adsbApiKey ≠ "" then
    ⟨fetch_from_adsb_exchange adsbOutcome, false, true⟩
  else
    match all_aircraft with
    | some l => ⟨l.filter (fun a => is_military_icao a.icao24), false, false⟩
    | none =>
        ⟨(fetch_aircraft openskyOutcome).filter (fun a => is_military_icao a.icao24),
          true, false⟩

/-!
Section: `main.py`
-/

/-- A live subscriber connection handle. -/
abbrev Conn := Nat

/-- Embedding of `ConnectionManager`: `self._connections` is a Python `set`; it is
modelled as a duplicate-free list (`connect` is `set.add`, `disconnect` is
`set.discard`). -/
structure ConnectionManager where
  connections : List Conn
deriving Repr, DecidableEq

/-- Embedding of `ConnectionManager.connect` (the `accept` handshake has no effect on the
registry state): `self._connections.add(websocket)`. -/
def ConnectionManager.connect (m : ConnectionManager) (c : Conn) : ConnectionManager :=
  if c ∈ m.connections then m else ⟨m.connections ++ [c]⟩

/-- Embedding of `ConnectionManager.disconnect`: `self._connections.discard(websocket)`. -/
def ConnectionManager.disconnect (m : ConnectionManager) (c : Conn) : ConnectionManager :=
  ⟨m.connections.filter (fun x => x ≠ c)⟩

/-- Embedding of `ConnectionManager.connection_count`. -/
def ConnectionManager.connection_count (m : ConnectionManager) : Nat :=
  m.connections.length

/-- The `for ws in self._connections` loop of `ConnectionManager.broadcast`:
returns the connections to which delivery was attempted, in order, and the
`dead` set collected from failed sends (`sendOk` tells whether `send_text`
succeeds for a connection). -/
def broadcastPass (conns : List Conn) (sendOk : Conn → Bool) : List Conn × List Conn :=
  match conns with
  | [] => ([], [])
  | c :: rest =>
      let p := broadcastPass rest sendOk
      (c :: p.1, if sendOk c then p.2 else c :: p.2)

/-- Embedding of `ConnectionManager.broadcast`: iterates the whole set collecting `dead`,
then removes the dead connections at once (`self._connections -= dead`).
Returns the new manager and the attempted-delivery list. -/
def ConnectionManager.broadcast (m : ConnectionManager) (sendOk : Conn → Bool) :
    ConnectionManager × List Conn :=
  let p := broadcastPass m.connections sendOk
  (⟨m.connections.filter (fun c => c ∉ p.2)⟩, p.1)

/-- The properties dict built for one aircraft in `_build_aircraft_geojson`. -/
def aircraftProps (ac : AircraftPosition) : List (String × PropVal) :=
  [("icao24", .s ac.icao24),
   ("callsign", .s ac.callsign),
   ("origin_country", .s ac.origin_country),
   ("altitude", .optNum ac.altitude),
   ("velocity", .optNum ac.velocity),
   ("heading", .optNum ac.heading),
   ("vertical_rate", .optNum ac.vertical_rate),
   ("on_ground", .b ac.on_ground)]

/-- The feature built for one aircraft in `_build_aircraft_geojson`:
`coordinates=[ac.longitude, ac.latitude]` (the guard of the loop ensures
both are present). -/
def aircraftFeature (ac : AircraftPosition) : GeoJSONFeature :=
  { geometry := { coordinates := [ac.longitude.getD 0, ac.latitude.getD 0] },
    properties := aircraftProps ac }

/-- The `for ac in aircraft_list` loop of `_build_aircraft_geojson`: a record
with `latitude is None or longitude is None` is skipped (`continue`). -/
def buildAircraftFeatures : List AircraftPosition → List GeoJSONFeature
  | [] => []
  | ac :: rest =>
      if ac.latitude = none ∨ ac.longitude = none then buildAircraftFeatures rest
      else aircraftFeature ac :: buildAircraftFeatures rest

/-- Embedding of `_build_aircraft_geojson`. -/
def build_aircraft_geojson (aircraft_list : List AircraftPosition) : GeoJSONFeatureCollection :=
  { features := buildAircraftFeatures aircraft_list }

/-- The feature built for one earthquake in `_build_earthquake_geojson`. -/
def earthquakeFeature (q : EarthquakeEvent) : GeoJSONFeature :=
  { geometry := { coordinates := [q.longitude, q.latitude] },
    properties := [("id", .s q.id), ("magnitude", .n q.magnitude),
                   ("place", .s q.place), ("depth_km", .n q.depth_km),
                   ("time_ms", .i q.time_ms)] }

/-- Embedding of `_build_earthquake_geojson` (earthquake records always carry a position). -/
def build_earthquake_geojson (quakes : List EarthquakeEvent) : GeoJSONFeatureCollection :=
  { features := quakes.map earthquakeFeature }

/-- Embedding of `models/schemas.py`: the `WorldPayload` pydantic model. The `timestamp`
field has a default factory and is irrelevant to the counts claims, so it is
not modelled. -/
structure WorldPayload where
  aircraft : GeoJSONFeatureCollection
  military : GeoJSONFeatureCollection
  satellites : GeoJSONFeatureCollection
  earthquakes : GeoJSONFeatureCollection
  counts : List (String × Int)
deriving Repr, DecidableEq

/-- A keyword-argument value passed to the `WorldPayload(...)` constructor
call in `broadcast_loop`. -/
inductive WPArg where
  | fc (c : GeoJSONFeatureCollection)
  | tleList (l : List TleTriple)
  | countsMap (m : List (String × Int))
deriving Repr, DecidableEq

/-- Keyword lookup of a feature-collection-typed field value. -/
def kwFC (kwargs : List (String × WPArg)) (k : String) : Option GeoJSONFeatureCollection :=
  match kwargs.find? (fun p => p.1 == k) with
  | some (_, .fc c) => some c
  | _ => none

/-- Keyword lookup of the `counts` field value. -/
def kwCounts (kwargs : List (String × WPArg)) (k : String) : Option (List (String × Int)) :=
  match kwargs.find? (fun p => p.1 == k) with
  | some (_, .countsMap m) => some m
  | _ => none

/-- Pydantic construction `WorldPayload(**kwargs)`: every field without a
default must be supplied with a value of the declared type, otherwise a
`ValidationError` is raised; unknown keyword arguments are ignored (the
default `extra` model configuration). -/
def worldPayloadInit (kwargs : List (String × WPArg)) : Except PyErr WorldPayload :=
  match kwFC kwargs "aircraft", kwFC kwargs "military", kwFC kwargs "satellites",
        kwFC kwargs "earthquakes", kwCounts kwargs "counts" with
  | some a, some m, some s, some e, some c =>
      .ok { aircraft := a, military := m, satellites := s, earthquakes := e, counts := c }
  | _, _, _, _, _ => .error .validationErr

/-- The keyword arguments of the `WorldPayload(...)` call in `broadcast_loop`
(`main.py` lines 120 to 131): note the `tles=` keyword where the model
declares a required `satellites` field. -/
def cycleKwargs (aircraft military : List AircraftPosition) (tles : List TleTriple)
    (quakes : List EarthquakeEvent) : List (String × WPArg) :=
  [("aircraft", .fc (build_aircraft_geojson aircraft)),
   ("military", .fc (build_aircraft_geojson military)),
   ("tles", .tleList tles),
   ("earthquakes", .fc (build_earthquake_geojson quakes)),
   ("counts", .countsMap
      [("aircraft", (aircraft.length : Int)),
       ("military", (military.length : Int)),
       ("satellites", (tles.length : Int)),
       ("earthquakes", (quakes.length : Int))])]

/-- Observable outcome of one `broadcast_loop` cycle. -/
structure CycleOutcome where
  manager : ConnectionManager
  deliveredTo : List Conn
  payload : Option WorldPayload
deriving Repr, DecidableEq

/-- One cycle of `broadcast_loop` with the fetch results stubbed
(`asyncio.gather(..., return_exceptions=True)` yields one value or exception
per fetcher). A fetcher exception is replaced by `[]`; then
`fetch_military_aircraft(aircraft)` runs with no ADS-B key configured (the
default settings), the `WorldPayload(...)` call is attempted, and on success
the serialized payload is broadcast once to every subscriber. The enclosing
`except Exception` swallows any error, so a failing payload construction
ends the cycle with nothing broadcast. -/
def run_cycle (m : ConnectionManager) (sendOk : Conn → Bool)
    (rAircraft : Except PyErr (List AircraftPosition))
    (rTles : Except PyErr (List TleTriple))
    (rQuakes : Except PyErr (List EarthquakeEvent)) : CycleOutcome :=
  if m.connection_count > 0 then
    let aircraft := match rAircraft with | .ok l => l | .error _ => []
    let tles := match rTles with | .ok l => l | .error _ => []
    let quakes := match rQuakes with | .ok l => l | .error _ => []
    let military := (fetch_military_aircraft "" (some aircraft)
        UpstreamOutcome.timeout UpstreamOutcome.timeout).result
    match worldPayloadInit (cycleKwargs aircraft military tles quakes) with
    | .ok p =>
        let b := m.broadcast sendOk
        ⟨b.1, b.2, some p⟩
    | .error _ => ⟨m, [], none⟩
  else ⟨m, [], none⟩

/-- Whether an upstream outcome is an exception rather than a response. -/
def UpstreamOutcome.isFailure : UpstreamOutcome → Bool
  | .ok _ => false
  | _ => true

/-!
Section: Concrete inputs used by the closed theorems below
-/

/-- A record used to exercise the aircraft builder at a concrete input. -/
def apWithPos : AircraftPosition := { icao24 := "abc123", longitude := some 5, latitude := some 6 }

/-- A demo earthquake event for cache scenarios. -/
def qDemo : EarthquakeEvent :=
  { id := "us7000abcd", magnitude := 3, place := "somewhere", longitude := 10,
    latitude := 20, depth_km := 5, time_ms := 1700000000000 }

/-- An OpenSky state vector whose longitude field has the wrong type. -/
def badStateDemo : JVal :=
  .arr [.str "a1b2c3", .str "UAL1 ", .str "United States", .num 1700000000,
        .num 1700000001, .str "bad", .num 40, .num 10000, .bool false,
        .num 250, .num 270, .num 0]

/-- An ADS-B Exchange record reporting `alt_baro = "ground"` with a valid
position. -/
def groundRecordDemo : JVal :=
  .obj [("lat", .num 10), ("lon", .num 20), ("alt_baro", .str "ground"),
        ("flight", .str "NAVY1 "), ("hex", .str "AE0123")]

/-- A well-formed airborne ADS-B Exchange record. -/
def airborneRecordDemo : JVal :=
  .obj [("lat", .num 10), ("lon", .num 20), ("flight", .str "X "),
        ("hex", .str "AE0123")]

/-- The aircraft record `_fetch_from_adsb_exchange` parses out of
`airborneRecordDemo`. -/
def apMilDemo : AircraftPosition :=
  { icao24 := "AE0123", callsign := "X", origin_country := "",
    longitude := some 20, latitude := some 10, altitude := none, velocity := none,
    heading := none, vertical_rate := none, on_ground := false, last_contact := none }

/-- Three aircraft records for the end-to-end cycle scenario (none military). -/
def apCycleA : AircraftPosition := { icao24 := "aaa111", longitude := some 1, latitude := some 2 }

/-- Second cycle record. -/
def apCycleB : AircraftPosition := { icao24 := "bbb222", longitude := some 3, latitude := some 4 }

/-- Third cycle record. -/
def apCycleC : AircraftPosition := { icao24 := "ccc333", longitude := some 5, latitude := some 6 }

/-!
Section: Helper lemmas
-/

/-- Reduction of an `Except` bind on a success value. -/
theorem exceptBindOk {α β : Type} (a : α) (f : α → Except PyErr β) :
    (Except.ok a >>= f) = f a := rfl

/-- Reduction of an `Except` bind on an error value. -/
theorem exceptBindErr {α β : Type} (e : PyErr) (f : α → Except PyErr β) :
    ((Except.error e : Except PyErr α) >>= f) = Except.error e := rfl

/-- The fuel argument of `parse_tle_step` is irrelevant once it bounds the
number of remaining lines. -/
theorem parse_tle_step_congr : ∀ (fuel fuel' : Nat) (lines : List String),
    lines.length ≤ fuel → lines.length ≤ fuel' →
    parse_tle_step lines fuel = parse_tle_step lines fuel' := by
  intro fuel
  induction fuel with
  | zero =>
      intro fuel' lines h h'
      have hl : lines = [] := List.eq_nil_of_length_eq_zero (Nat.le_zero.mp h)
      subst hl
      cases fuel' <;> rfl
  | succ n ih =>
      intro fuel' lines h h'
      cases fuel' with
      | zero =>
          have hl : lines = [] := List.eq_nil_of_length_eq_zero (Nat.le_zero.mp h')
          subst hl
          rfl
      | succ m =>
          match lines with
          | [] => rfl
          | [a] => rfl
          | [a, b] => rfl
          | name :: l1 :: l2 :: rest =>
              simp only [List.length_cons] at h h'
              simp only [parse_tle_step]
              split
              · rw [ih m rest (by omega) (by omega)]
              · exact ih m (l1 :: l2 :: rest) (by simp only [List.length_cons]; omega)
                  (by simp only [List.length_cons]; omega)

/-- The grouping rule of the `while` loop of `_parse_tle_text`: a name line
followed by lines starting with `"1 "` and `"2 "` emits a triple and advances
by three lines; otherwise the loop advances by a single line. -/
theorem parseTleLoop_cons (name l1 l2 : String) (rest : List String) :
    parseTleLoop (name :: l1 :: l2 :: rest) =
      if pyStartsWith l1 "1 " && pyStartsWith l2 "2 " then
        (name, l1, l2) :: parseTleLoop rest
      else parseTleLoop (l1 :: l2 :: rest) := by
  unfold parseTleLoop
  simp only [List.length_cons, parse_tle_step]
  split
  · rw [parse_tle_step_congr _ _ rest (by omega) (le_refl _)]
  · exact parse_tle_step_congr _ _ (l1 :: l2 :: rest)
      (by simp only [List.length_cons]; omega) (le_refl _)

/-- C2: the orbital-elements parser groups lines in threes, emitting a
`(name, line1, line2)` entry exactly when the line after a name line starts
with `"1 "` and the next one with `"2 "`; any mismatch advances one line and
resynchronizes; fewer than three remaining lines end the parse. On the lines
`["SATA", "1 ...", "2 ...", "GARBAGE", "SATB", "1 ...", "2 ..."]` exactly the
entries for SATA and SATB are produced, skipping the GARBAGE line. -/
theorem claim_tle_parser_grouping :
    (∀ (name l1 l2 : String) (rest : List String),
        parseTleLoop (name :: l1 :: l2 :: rest) =
          if pyStartsWith l1 "1 " && pyStartsWith l2 "2 " then
            (name, l1, l2) :: parseTleLoop rest
          else parseTleLoop (l1 :: l2 :: rest))
    ∧ (parseTleLoop [] = []
       ∧ (∀ a, parseTleLoop [a] = [])
       ∧ (∀ a b, parseTleLoop [a, b] = []))
    ∧ parse_tle_text ["SATA", "1 ...", "2 ...", "GARBAGE", "SATB", "1 ...", "2 ..."] =
        [("SATA", "1 ...", "2 ..."), ("SATB", "1 ...", "2 ...")] :=
  ⟨parseTleLoop_cons, ⟨rfl, fun _ => rfl, fun _ _ => rfl⟩, by decide⟩

/-- The per-record loop of `_build_aircraft_geojson` keeps exactly the
records with both coordinates present, in order. -/
theorem buildAircraftFeatures_eq (l : List AircraftPosition) :
    buildAircraftFeatures l =
      (l.filter (fun a => a.longitude.isSome && a.latitude.isSome)).map aircraftFeature := by
  induction l with
  | nil => rfl
  | cons a rest ih =>
      cases hlo : a.longitude <;> cases hla : a.latitude <;>
        simp [buildAircraftFeatures, List.filter_cons, hlo, hla, ih]

/-- C4: the aircraft feature-collection builder emits one feature per record
having both longitude and latitude (and none for a record missing either),
and each emitted feature carries the coordinates as `[longitude, latitude]`. -/
theorem claim_aircraft_builder_filters :
    (∀ l : List AircraftPosition,
        (build_aircraft_geojson l).features =
          (l.filter (fun a => a.longitude.isSome && a.latitude.isSome)).map aircraftFeature)
    ∧ (∀ (a : AircraftPosition) (lo la : ℚ), a.longitude = some lo → a.latitude = some la →
        (aircraftFeature a).geometry.coordinates = [lo, la]) := by
  constructor
  · intro l
    exact buildAircraftFeatures_eq l
  · intro a lo la h1 h2
    simp [aircraftFeature, h1, h2]

/-- Witness for C4 at a concrete record with both coordinates present. -/
theorem claim_aircraft_builder_filters_witness :
    (aircraftFeature apWithPos).geometry.coordinates = [(5 : ℚ), 6] :=
  claim_aircraft_builder_filters.2 apWithPos 5 6 rfl rfl

/-- Every connection of the snapshot receives a delivery attempt, in order,
regardless of failures. -/
theorem broadcastPass_fst (conns : List Conn) (sendOk : Conn → Bool) :
    (broadcastPass conns sendOk).1 = conns := by
  induction conns with
  | nil => rfl
  | cons c rest ih => simp [broadcastPass, ih]

/-- The `dead` set collected by the loop is exactly the failing connections. -/
theorem broadcastPass_snd (conns : List Conn) (sendOk : Conn → Bool) :
    (broadcastPass conns sendOk).2 = conns.filter (fun c => !sendOk c) := by
  induction conns with
  | nil => rfl
  | cons c rest ih =>
      cases h : sendOk c <;> simp [broadcastPass, List.filter_cons, h, ih]

/-- C7: `broadcast` attempts delivery to every connection of the snapshot
(failures are only marked, never removed during the iteration, so a failing
connection never prevents attempts to the remaining ones), and afterwards the
subscriber set equals the prior set minus exactly the failing connections. -/
theorem claim_broadcast_isolation (m : ConnectionManager) (sendOk : Conn → Bool) :
    (m.broadcast sendOk).2 = m.connections ∧
    (m.broadcast sendOk).1.connections = m.connections.filter (fun c => sendOk c) := by
  unfold ConnectionManager.broadcast
  refine ⟨broadcastPass_fst m.connections sendOk, ?_⟩
  refine List.filter_congr ?_
  intro c hc
  simp [broadcastPass_snd, List.mem_filter, hc]

/-- Witness for C7 at a concrete registry and failing second connection. -/
theorem claim_broadcast_isolation_witness :
    ((⟨[1, 2, 3]⟩ : ConnectionManager).broadcast (fun c => c ≠ 2)).2 = [1, 2, 3] ∧
    ((⟨[1, 2, 3]⟩ : ConnectionManager).broadcast (fun c => c ≠ 2)).1.connections =
      [1, 2, 3].filter (fun c => c ≠ 2) :=
  claim_broadcast_isolation ⟨[1, 2, 3]⟩ (fun c => c ≠ 2)

/-- C8 counterexample: when the connection is already registered, Python set
semantics make `register` a no-op while `unregister` still removes it, so
`count()` does not return to its pre-register value. -/
theorem claim_register_unregister_counterexample :
    ¬ ((((⟨[5]⟩ : ConnectionManager).connect 5).disconnect 5).connection_count =
        (⟨[5]⟩ : ConnectionManager).connection_count) := by decide

/-- C8 as amended: for a connection that is not already registered,
`register` followed by `unregister` returns `count()` to its pre-register
value; broadcasting to an empty registry attempts no delivery, changes
nothing and never errors. -/
theorem claim_register_unregister_fresh (m : ConnectionManager) (c : Conn)
    (h : c ∉ m.connections) :
    ((m.connect c).disconnect c).connection_count = m.connection_count
    ∧ ∀ sendOk, (⟨[]⟩ : ConnectionManager).broadcast sendOk = (⟨[]⟩, []) := by
  constructor
  · unfold ConnectionManager.connect ConnectionManager.disconnect
      ConnectionManager.connection_count
    rw [if_neg h]
    simp only [List.filter_append, List.length_append]
    have h1 : m.connections.filter (fun x => x ≠ c) = m.connections := by
      refine List.filter_eq_self.mpr ?_
      intro a ha
      simp only [ne_eq, decide_eq_true_eq]
      intro hac
      exact h (hac ▸ ha)
    have h2 : [c].filter (fun x => x ≠ c) = [] := by simp
    rw [h1, h2]
    simp
  · intro sendOk
    rfl

/-- Witness for C8 (amended) at a concrete registry and fresh connection. -/
theorem claim_register_unregister_fresh_witness :
    (((⟨[3]⟩ : ConnectionManager).connect 7).disconnect 7).connection_count =
      (⟨[3]⟩ : ConnectionManager).connection_count
    ∧ (⟨[]⟩ : ConnectionManager).broadcast (fun _ => false) = (⟨[]⟩, []) :=
  ⟨(claim_register_unregister_fresh ⟨[3]⟩ 7 (by decide)).1,
   (claim_register_unregister_fresh ⟨[3]⟩ 7 (by decide)).2 (fun _ => false)⟩

/-- C9: with no ADS-B key configured, the military fetcher filters the
supplied primary records by the fixed case-insensitive prefix table without
contacting any upstream service, and with no supplied records it fetches the
primary feed itself and applies the same filter; the prefix match is
case-insensitive. -/
theorem claim_military_filter_paths :
    (∀ (l : List AircraftPosition) (d o : UpstreamOutcome),
        fetch_military_aircraft "" (some l) d o =
          ⟨l.filter (fun a => is_military_icao a.icao24), false, false⟩)
    ∧ (∀ d o : UpstreamOutcome,
        fetch_military_aircraft "" none d o =
          ⟨(fetch_aircraft o).filter (fun a => is_military_icao a.icao24), true, false⟩)
    ∧ (∀ s : String,
        is_military_icao s =
          MILITARY_ICAO_PREFIXES.any (fun p => pyStartsWith (pyLower s) p))
    ∧ is_military_icao "AE1234" = true
    ∧ is_military_icao "Ae1234" = true
    ∧ is_military_icao "ae1234" = true
    ∧ is_military_icao "7C1abc" = true
    ∧ is_military_icao "abc123" = false :=
  ⟨fun l d o => rfl, fun d o => rfl, fun s => rfl,
   by decide, by decide, by decide, by decide, by decide⟩

/-- On any upstream exception `fetch_earthquakes` returns the previous cache
value and leaves the cache state unchanged. -/
theorem fetch_earthquakes_failure (st : QuakeCacheState) (now : ℚ)
    (o : UpstreamOutcome) (h : o.isFailure = true) :
    fetch_earthquakes st now o = (st, st.cache) := by
  cases o with
  | ok data => simp [UpstreamOutcome.isFailure] at h
  | timeout => simp [fetch_earthquakes, fetch_earthquakes_body, ite_self]
  | httpStatus code => simp [fetch_earthquakes, fetch_earthquakes_body, ite_self]
  | connError => simp [fetch_earthquakes, fetch_earthquakes_body, ite_self]

/-- C6: whenever the upstream fetch fails (timeout or any other exception),
the earthquake fetcher returns the previous cache value unchanged and leaves
the cache contents unchanged, so a populated cache is never emptied by a
transient error. -/
theorem claim_usgs_failure_preserves_cache (st : QuakeCacheState) (now : ℚ)
    (o : UpstreamOutcome) (h : o.isFailure = true) :
    fetch_earthquakes st now o = (st, st.cache)
    ∧ (st.cache ≠ [] → (fetch_earthquakes st now o).2 ≠ []) := by
  refine ⟨fetch_earthquakes_failure st now o h, ?_⟩
  intro hne
  rw [fetch_earthquakes_failure st now o h]
  exact hne

/-- Witness for C6: a populated but expired cache survives a timeout. -/
theorem claim_usgs_failure_preserves_cache_witness :
    fetch_earthquakes ⟨[qDemo], 0⟩ 100 .timeout = (⟨[qDemo], 0⟩, [qDemo])
    ∧ (fetch_earthquakes ⟨[qDemo], 0⟩ 100 .timeout).2 ≠ [] :=
  ⟨(claim_usgs_failure_preserves_cache ⟨[qDemo], 0⟩ 100 .timeout rfl).1,
   (claim_usgs_failure_preserves_cache ⟨[qDemo], 0⟩ 100 .timeout rfl).2 (by decide)⟩

/-- C5 counterexample: on an upstream failure (here a timeout, with the
60-second cache expired) the earthquake fetcher returns its previous cache
value, a nonempty sequence, not an empty one. -/
theorem claim_fetchers_empty_counterexample :
    (fetch_earthquakes ⟨[qDemo], 0⟩ 100 .timeout).2 ≠ [] := by
  rw [fetch_earthquakes_failure ⟨[qDemo], 0⟩ 100 .timeout rfl]
  decide

/-- C5 as amended: no fetcher ever raises to its caller; malformed responses
that still parse as JSON yield an empty sequence; on upstream failures
(timeout, HTTP error status, other exceptions) the aircraft fetcher returns
the empty sequence while the earthquake fetcher returns its previous cache
value, which is empty only when no cache exists yet. -/
theorem claim_fetchers_degrade_without_raising :
    (∀ (st : QuakeCacheState) (now : ℚ) (o : UpstreamOutcome), o.isFailure = true →
        fetch_earthquakes st now o = (st, st.cache))
    ∧ fetch_aircraft .timeout = []
    ∧ fetch_aircraft (.httpStatus 429) = []
    ∧ fetch_aircraft .connError = []
    ∧ fetch_aircraft (.ok (.arr [])) = []
    ∧ fetch_aircraft (.ok (.obj [])) = []
    ∧ fetch_aircraft (.ok (.obj [("states", .num 5)])) = []
    ∧ fetch_aircraft (.ok (.obj [("states", .arr [.arr []])])) = []
    ∧ fetch_aircraft (.ok (.obj [("states", .arr [badStateDemo])])) = []
    ∧ fetch_earthquakes ⟨[], 0⟩ 100 (.ok (.arr [])) = (⟨[], 0⟩, [])
    ∧ fetch_earthquakes ⟨[], 0⟩ 100 (.ok (.obj [])) = (⟨[], 100⟩, [])
    ∧ fetch_earthquakes ⟨[], 0⟩ 100 (.ok (.obj [("features", .arr [.obj []])])) = (⟨[], 100⟩, [])
    ∧ fetch_earthquakes ⟨[], 0⟩ 100 (.ok (.obj [("features", .num 5)])) = (⟨[], 0⟩, []) :=
  ⟨fetch_earthquakes_failure, rfl, rfl, rfl, rfl, rfl, rfl, rfl, rfl, rfl, rfl, rfl, rfl⟩

/-- Witness for C5 (amended), applying the universal failure clause at a
concrete empty cache and connection error. -/
theorem claim_fetchers_degrade_without_raising_witness :
    fetch_earthquakes ⟨[], 5⟩ 6 .connError = (⟨[], 5⟩, []) :=
  claim_fetchers_degrade_without_raising.1 ⟨[], 5⟩ 6 .connError rfl

/-- C3 counterexample: with an empty cache and every upstream attempt
failing transiently, `fetch_satellites` issues exactly one upstream request,
performs no backoff sleep, and returns empty; it never reaches a second or
third attempt as the claimed retry policy requires. -/
theorem claim_satellite_retry_counterexample :
    (fetch_satellites (fun _ => none) ⟨[], 0⟩ 0 (fun _ => .error ())).upstreamCalls = 1
    ∧ (fetch_satellites (fun _ => none) ⟨[], 0⟩ 0 (fun _ => .error ())).backoffSleeps = []
    ∧ (fetch_satellites (fun _ => none) ⟨[], 0⟩ 0 (fun _ => .error ())).result = []
    ∧ ¬ 2 ≤ (fetch_satellites (fun _ => none) ⟨[], 0⟩ 0 (fun _ => .error ())).upstreamCalls := by
  refine ⟨rfl, rfl, rfl, ?_⟩
  intro h
  exact absurd h (by decide)

/-- C3 as amended: when the cache is empty or its TTL has expired, the
satellite fetcher makes exactly one upstream attempt with no retries and no
backoff sleeps; if that attempt fails it falls back to the existing cache
(recomputing positions from it, capped at `MAX_SATELLITES`), or to an empty
result if no cache exists yet, leaving the cache state unchanged. -/
theorem claim_satellite_single_attempt (cp : TleTriple → Option SatellitePosition)
    (st : TleCacheState) (now : ℚ) (oracle : Nat → Except Unit (List String))
    (h : st.tle_cache = [] ∨ now - st.cache_time > TLE_CACHE_TTL_SECONDS) :
    (fetch_satellites cp st now oracle).upstreamCalls = 1
    ∧ (fetch_satellites cp st now oracle).backoffSleeps = []
    ∧ (∀ u, oracle 0 = .error u →
        (fetch_satellites cp st now oracle).state = st
        ∧ (st.tle_cache = [] → (fetch_satellites cp st now oracle).result = [])
        ∧ (st.tle_cache ≠ [] →
            (fetch_satellites cp st now oracle).result =
              (st.tle_cache.take MAX_SATELLITES).filterMap cp)) := by
  unfold fetch_satellites
  rw [if_pos h]
  cases ho : oracle 0 with
  | ok raw =>
      refine ⟨rfl, rfl, ?_⟩
      intro u hu
      exact Except.noConfusion hu
  | error u' =>
      by_cases hc : st.tle_cache = []
      · rw [if_pos hc]
        exact ⟨rfl, rfl, fun u _ => ⟨rfl, fun _ => rfl, fun hne => absurd hc hne⟩⟩
      · rw [if_neg hc]
        exact ⟨rfl, rfl, fun u _ => ⟨rfl, fun he => absurd he hc, fun _ => rfl⟩⟩

/-- Witness for C3 (amended) at a concrete populated, expired cache whose
single upstream attempt fails. -/
theorem claim_satellite_single_attempt_witness :
    (fetch_satellites (fun _ => none) ⟨[("A", "1 x", "2 x")], 0⟩ 5000
        (fun _ => .error ())).upstreamCalls = 1
    ∧ (fetch_satellites (fun _ => none) ⟨[("A", "1 x", "2 x")], 0⟩ 5000
        (fun _ => .error ())).result =
      (([("A", "1 x", "2 x")] : List TleTriple).take MAX_SATELLITES).filterMap
        (fun _ => none) :=
  ⟨(claim_satellite_single_attempt (fun _ => none) ⟨[("A", "1 x", "2 x")], 0⟩ 5000
      (fun _ => .error ()) (Or.inr (by norm_num [TLE_CACHE_TTL_SECONDS]))).1,
   ((claim_satellite_single_attempt (fun _ => none) ⟨[("A", "1 x", "2 x")], 0⟩ 5000
      (fun _ => .error ()) (Or.inr (by norm_num [TLE_CACHE_TTL_SECONDS]))).2.2 ()
      rfl).2.2 (by decide)⟩

/-- C1: the end-to-end scenario cannot succeed on this code. With one
subscriber registered and stubbed fetch results of 3 aircraft and empty
remaining sources, the cycle calls `WorldPayload(aircraft=..., military=...,
tles=..., earthquakes=..., counts=...)` while the model declares a required
`satellites` field and no `tles` field, so pydantic raises a
`ValidationError`, the enclosing `except` swallows it and the subscriber
receives zero payloads instead of exactly one. -/
theorem claim_cycle_broadcast_bug :
    run_cycle ⟨[0]⟩ (fun _ => true) (.ok [apCycleA, apCycleB, apCycleC]) (.ok []) (.ok []) =
      ⟨⟨[0]⟩, [], none⟩
    ∧ worldPayloadInit (cycleKwargs [apCycleA, apCycleB, apCycleC] [] [] []) =
      .error .validationErr :=
  ⟨rfl, rfl⟩

/-- A JSON value equal to the string `"ground"` under Python equality is that
string. -/
theorem pyEqStr_ground : ∀ {v : JVal}, pyEqStr v "ground" = true → v = .str "ground"
  | .str t, h => by
      simp only [pyEqStr, beq_iff_eq] at h
      rw [h]
  | .null, h => by simp [pyEqStr] at h
  | .bool _, h => by simp [pyEqStr] at h
  | .num _, h => by simp [pyEqStr] at h
  | .arr _, h => by simp [pyEqStr] at h
  | .obj _, h => by simp [pyEqStr] at h

/-- When `d.get(k)` yields a non-null value, `d[k]` yields the same value. -/
theorem pySub_of_pyGet {d : JVal} {k : String} {v : JVal}
    (h : pyGet d k = .ok v) (hv : v.isNull = false) : pySub d k = .ok v := by
  cases d with
  | obj kvs =>
      simp only [pyGet, Except.ok.injEq] at h
      cases hl : jlookup kvs k with
      | none =>
          rw [hl] at h
          simp only [Option.getD_none] at h
          rw [← h] at hv
          simp [JVal.isNull] at hv
      | some w =>
          rw [hl] at h
          simp only [Option.getD_some] at h
          subst h
          simp [pySub, hl]
  | null => simp [pyGet] at h
  | bool _ => simp [pyGet] at h
  | num _ => simp [pyGet] at h
  | str _ => simp [pyGet] at h
  | arr _ => simp [pyGet] at h

/-- When `ac.get("alt_baro")` is the string `"ground"`, the altitude keyword
argument raises `ValueError` inside `float`. -/
theorem adsb_altitude_ground_error {ac : JVal}
    (hG : pyGet ac "alt_baro" = .ok (.str "ground")) :
    adsb_altitude ac = .error .valueErr := by
  unfold adsb_altitude
  rw [hG, exceptBindOk,
    if_pos (show truthy (JVal.str "ground") = true from rfl),
    pySub_of_pyGet hG rfl, exceptBindOk,
    show pyFloat (JVal.str "ground") = Except.error PyErr.valueErr from rfl,
    exceptBindErr]

/-- A successful `Except` bind factors through a successful first step. -/
theorem bind_ok_exists {α β : Type} {e : Except PyErr α} {f : α → Except PyErr β} {b : β}
    (h : (e >>= f) = .ok b) : ∃ a, e = .ok a ∧ f a = .ok b := by
  cases e with
  | ok a => exact ⟨a, rfl, h⟩
  | error e' => exact Except.noConfusion h

/-- Each member of a successful `mapExcept` run comes from a successful
application of the body to some input element. -/
theorem mapExcept_mem {α β : Type} {g : α → Except PyErr β} :
    ∀ {xs : List α} {res : List β}, mapExcept g xs = .ok res →
      ∀ {r : β}, r ∈ res → ∃ x ∈ xs, g x = .ok r := by
  intro xs
  induction xs with
  | nil =>
      intro res h r hr
      have he : ([] : List β) = res := Except.ok.inj h
      subst he
      exact absurd hr (List.not_mem_nil r)
  | cons x xs ih =>
      intro res h r hr
      rw [mapExcept] at h
      obtain ⟨b, h1, h⟩ := bind_ok_exists h
      obtain ⟨bs, h2, h⟩ := bind_ok_exists h
      have he : b :: bs = res := Except.ok.inj h
      subst he
      rcases List.mem_cons.mp hr with hrb | hrbs
      · subst hrb
        exact ⟨x, List.mem_cons_self x xs, h1⟩
      · obtain ⟨y, hy, hgy⟩ := ih h2 hrbs
        exact ⟨y, List.mem_cons_of_mem x hy, hgy⟩

/-- A record successfully parsed by the per-record body of
`_fetch_from_adsb_exchange` never carries `on_ground = True`: the only way
`alt_baro == "ground"` holds is `alt_baro` being that string, which makes the
earlier `float(ac["alt_baro"])` raise before the record is built. -/
theorem parse_adsb_body_on_ground (ac : JVal) (a : AircraftPosition)
    (h : parse_adsb_record_body ac = .ok (some a)) : a.on_ground = false := by
  unfold parse_adsb_record_body at h
  obtain ⟨latV, h1, h⟩ := bind_ok_exists h
  obtain ⟨lonV, h2, h⟩ := bind_ok_exists h
  cases hnull : latV.isNull || lonV.isNull with
  | true =>
      rw [hnull, if_pos (show true = true from rfl)] at h
      exact Option.noConfusion (Except.ok.inj h)
  | false =>
      rw [hnull, if_neg (show ¬ (false = true) by decide)] at h
      obtain ⟨hexV, h3, h⟩ := bind_ok_exists h
      obtain ⟨flightV, h4, h⟩ := bind_ok_exists h
      obtain ⟨csArg, h5, h⟩ := bind_ok_exists h
      obtain ⟨lon, h6, h⟩ := bind_ok_exists h
      obtain ⟨lat, h7, h⟩ := bind_ok_exists h
      obtain ⟨altitude, h8, h⟩ := bind_ok_exists h
      obtain ⟨velocity, h9, h⟩ := bind_ok_exists h
      obtain ⟨heading, h10, h⟩ := bind_ok_exists h
      obtain ⟨abV, h11, h⟩ := bind_ok_exists h
      obtain ⟨icaoS, h12, h⟩ := bind_ok_exists h
      obtain ⟨csS, h13, h⟩ := bind_ok_exists h
      have hrec := Option.some.inj (Except.ok.inj h)
      subst hrec
      show pyEqStr abV "ground" = false
      cases hog : pyEqStr abV "ground" with
      | false => rfl
      | true =>
          have habv := pyEqStr_ground hog
          subst habv
          rw [adsb_altitude_ground_error h11] at h8
          exact Except.noConfusion h8

/-- Lifting of `parse_adsb_body_on_ground` through the per-record exception
handler. -/
theorem parse_adsb_on_ground (ac : JVal) (a : AircraftPosition)
    (h : parse_adsb_record ac = .ok (some a)) : a.on_ground = false := by
  unfold parse_adsb_record at h
  cases hb : parse_adsb_record_body ac with
  | ok r =>
      rw [hb] at h
      have hr : r = some a := Except.ok.inj h
      subst hr
      exact parse_adsb_body_on_ground ac a hb
  | error e =>
      rw [hb] at h
      have h' : (if e = PyErr.keyErr ∨ e = PyErr.typeErr ∨ e = PyErr.valueErr then
          (Except.ok none : Except PyErr (Option AircraftPosition))
        else Except.error e) = Except.ok (some a) := h
      by_cases he : e = .keyErr ∨ e = .typeErr ∨ e = .valueErr
      · rw [if_pos he] at h'
        exact Option.noConfusion (Except.ok.inj h')
      · rw [if_neg he] at h'
        exact Except.noConfusion h'

/-- C10: in the dedicated ADS-B Exchange path, a record whose `alt_baro`
field is the string `"ground"` is skipped entirely even with a valid
position (the `float` conversion raises and the per-record handler drops
it), and consequently no record produced by this path has `on_ground` set
to true. -/
theorem claim_adsb_ground_skipped :
    (∀ (outcome : UpstreamOutcome) (a : AircraftPosition),
        a ∈ fetch_from_adsb_exchange outcome → a.on_ground = false)
    ∧ parse_adsb_record groundRecordDemo = .ok none
    ∧ fetch_from_adsb_exchange (.ok (.obj [("ac", .arr [groundRecordDemo])])) = [] := by
  refine ⟨?_, rfl, rfl⟩
  intro outcome a ha
  unfold fetch_from_adsb_exchange at ha
  cases hb : fetch_from_adsb_exchange_body outcome with
  | error e =>
      rw [hb] at ha
      exact absurd ha (List.not_mem_nil a)
  | ok l =>
      rw [hb] at ha
      cases outcome with
      | timeout => exact Except.noConfusion hb
      | httpStatus code => exact Except.noConfusion hb
      | connError => exact Except.noConfusion hb
      | ok data =>
          unfold fetch_from_adsb_exchange_body at hb
          obtain ⟨acV, g1, hb⟩ := bind_ok_exists hb
          obtain ⟨acs, g2, hb⟩ := bind_ok_exists hb
          obtain ⟨parsed, g3, hb⟩ := bind_ok_exists hb
          have hl : parsed.filterMap id = l := Except.ok.inj hb
          subst hl
          obtain ⟨x, hx, hid⟩ := List.mem_filterMap.mp ha
          obtain ⟨rec, hrec, hparse⟩ := mapExcept_mem g3 hx
          have hxa : x = some a := hid
          subst hxa
          exact parse_adsb_on_ground rec a hparse

/-- Witness for C10: a concrete airborne record parsed by the ADS-B path has
`on_ground = false`. -/
theorem claim_adsb_ground_skipped_witness : apMilDemo.on_ground = false :=
  claim_adsb_ground_skipped.1 (.ok (.obj [("ac", .arr [airborneRecordDemo])]))
    apMilDemo (by decide)
